import Mathlib

/-!
Verification of the draw-a-memory server core against its specification.

The definitions below are a shallow embedding of the Go server sources:
  * `src/server/database.go`   (AnalyzeAndClusterPhotosWithData, CreateMockClusters,
                                the SQL-backed photo/cluster/draft store)
  * `src/server/handlers_drafts.go` (handleUpdateDraft, handleDeleteDraft,
                                deletePhotosFromStorageAndDB)
  * `src/server/handlers_photos.go` (HandleDeletePhoto, calculateClusterDatesAndAge)
  * `src/server/main.go`       (CalculateAgeString)
  * `src/server/storage.go`    (Storage.DeletePhoto)

Machine integers are modelled as `Int`/`Nat` (no overflow is reachable for the
quantities involved), Go `time.Time` values as UTC Unix seconds (`Int`) with the
proleptic Gregorian calendar for the `Year`/`Month`/`Day` accessors, and the SQL
tables as Lean lists with the WHERE clauses translated to filters.
-/

namespace DrawAMemory

/-! ## Cluster Builder (database.go: AnalyzeAndClusterPhotosWithData) -/

/-- A cluster as built by the Go code (`PhotoCluster`).  The random `ID` and the
`Date` field (`time.Now().Format("January 2006")`) do not influence any claim
and are omitted. -/
structure PhotoCluster where
  photoIds : List String
  theme : String
  title : String
  description : String
deriving Repr, DecidableEq

/-- One group of the classifier JSON output (`clusterResp.Clusters` entries in
`AnalyzeAndClusterPhotosWithData`). -/
structure ClassifierGroup where
  photoIndexes : List Int
  title : String
  description : String
  theme : String
deriving Repr, DecidableEq

/-- The fixed description used by `CreateMockClusters`. -/
def mockClusterDescription : String :=
  "A beautiful collection of memories capturing the joy and wonder of these special moments. Each photo tells a story of love and growth."

/-- Embeds `CreateMockClusters` from database.go: one cluster holding the whole batch,
theme "love"; `nil` for an empty batch. -/
def CreateMockClusters (photoIds : List String) : List PhotoCluster :=
  if photoIds = [] then []
  else [{ photoIds := photoIds, theme := "love", title := "Precious Moments",
          description := mockClusterDescription }]

/-- The per-group repair loop of `AnalyzeAndClusterPhotosWithData`: indexes
outside `[0, len(photoIds))` are dropped, surviving indexes are mapped to ids.
The Go loop appends `photoIds[idx]` for each in-range `idx`; `List.getD` with
an in-range index is that same lookup. -/
def repairGroupIds (photoIds : List String) (g : ClassifierGroup) : List String :=
  (g.photoIndexes.filter
      (fun idx => decide (0 ≤ idx) && decide (idx < (photoIds.length : Int)))).map
    (fun idx => photoIds.getD idx.toNat "")

/-- The cluster-building loop of `AnalyzeAndClusterPhotosWithData`: each group
whose repaired id list is non-empty becomes one cluster. -/
def repairClusters (photoIds : List String) (groups : List ClassifierGroup) :
    List PhotoCluster :=
  groups.filterMap (fun g =>
    let ids := repairGroupIds photoIds g
    if ids = [] then none
    else some { photoIds := ids, theme := g.theme, title := g.title,
                description := g.description })

/-- Embeds `AnalyzeAndClusterPhotosWithData` from database.go.  The classifier call is
abstracted as `classifierOutput`: `none` stands for every failure path of the
Go code (missing API key, client creation error, API error, empty or
non-JSON response, JSON parse error), `some groups` for a parsed response.
Every `return` statement of the Go function carries a `nil` error, which the
`Except` result makes explicit. -/
def AnalyzeAndClusterPhotos (photoIds : List String)
    (classifierOutput : Option (List ClassifierGroup)) :
    Except String (List PhotoCluster) :=
  match classifierOutput with
  | none => .ok (CreateMockClusters photoIds)
  | some groups =>
      let clusters := repairClusters photoIds groups
      if clusters = [] then .ok (CreateMockClusters photoIds)
      else .ok clusters

/-- The id lists of a cluster list, concatenated. -/
def clusterIdsUnion (cs : List PhotoCluster) : List String :=
  (cs.map (fun c => c.photoIds)).flatten

/-- The clusters of the ok-payload of a clustering result ([] on error). -/
def okClusters (r : Except String (List PhotoCluster)) : List PhotoCluster :=
  match r with
  | .ok cs => cs
  | .error _ => []

/-- The exact-partition property claimed for the repair step: the union of the
cluster id lists has the same members as the batch and contains no duplicate. -/
def coversBatchExactly (cs : List PhotoCluster) (batch : List String) : Bool :=
  ((clusterIdsUnion cs).all (fun id => batch.contains id)) &&
    (batch.all (fun id => (clusterIdsUnion cs).contains id)) &&
    decide (clusterIdsUnion cs).Nodup

/-! ## Go time model

A Go `time.Time` is modelled as its UTC Unix timestamp in whole seconds
(`Int`).  EXIF timestamps carry whole seconds, so no reachable value is
truncated.  `civilFromDays`/`daysFromCivil` are the standard proleptic
Gregorian conversions between a day number (days since 1970-01-01) and a
civil date; they give the meaning of Go's `Time.Year/Month/Day` accessors
in UTC. -/

/-- Seconds per day. -/
def secondsPerDay : Int := 86400

/-- The Unix timestamp of Go's zero `time.Time`, 0001-01-01T00:00:00 UTC
(`IsZero` compares against this instant). -/
def goZeroTime : Int := -62135596800

/-- Civil date (year, month, day) of a day number (days since 1970-01-01),
proleptic Gregorian calendar. -/
def civilFromDays (z0 : Int) : Int × Nat × Nat :=
  let z := z0 + 719468
  let era := Int.fdiv z 146097
  let doe := (z - era * 146097).toNat
  let yoe := (doe - doe / 1460 + doe / 36524 - doe / 146096) / 365
  let y := (yoe : Int) + era * 400
  let doy := doe - (365 * yoe + yoe / 4 - yoe / 100)
  let mp := (5 * doy + 2) / 153
  let d := doy - (153 * mp + 2) / 5 + 1
  let m := if mp < 10 then mp + 3 else mp - 9
  (if m ≤ 2 then y + 1 else y, m, d)

/-- Day number (days since 1970-01-01) of a civil date, inverse of
`civilFromDays`. -/
def daysFromCivil (y0 m d : Int) : Int :=
  let y := if m ≤ 2 then y0 - 1 else y0
  let era := Int.fdiv y 400
  let yoe := y - era * 400
  let mp := if 2 < m then m - 3 else m + 9
  let doy := Int.ediv (153 * mp + 2) 5 + d - 1
  let doe := yoe * 365 + Int.ediv yoe 4 - Int.ediv yoe 100 + doy
  era * 146097 + doe - 719468

/-- The civil date of a timestamp: Go's `t.Date()` in UTC. -/
def dateOf (t : Int) : Int × Nat × Nat :=
  civilFromDays (Int.fdiv t secondsPerDay)

/-- Midnight UTC timestamp of a civil date. -/
def midnightOf (y m d : Int) : Int :=
  secondsPerDay * daysFromCivil y m d

/-- Full English month name, as produced by Go's `Month.String()` and the
`January` layout element. -/
def monthName : Nat → String
  | 1 => "January"
  | 2 => "February"
  | 3 => "March"
  | 4 => "April"
  | 5 => "May"
  | 6 => "June"
  | 7 => "July"
  | 8 => "August"
  | 9 => "September"
  | 10 => "October"
  | 11 => "November"
  | 12 => "December"
  | _ => ""

/-- Three-letter month abbreviation, as produced by Go's `Jan` layout
element (the first three letters of the full name). -/
def monthAbbrev (m : Nat) : String := (monthName m).take 3

/-! ## Temporal Metadata Calculator -/

/-- The year/month rendering chain shared by the tail of
`CalculateAgeString` (main.go) and the spec §4.4 band list; the two texts
prescribe the identical singular/plural strings. -/
def formatYearsMonthsOld (years months : Int) : String :=
  if years = 0 then
    if months = 1 then "1 month old"
    else toString months ++ " months old"
  else if years = 1 ∧ months = 0 then "1 year old"
  else if years = 1 then
    if months = 1 then "1 year, 1 month old"
    else "1 year, " ++ toString months ++ " months old"
  else if months = 0 then toString years ++ " years old"
  else if months = 1 then toString years ++ " years, 1 month old"
  else toString years ++ " years, " ++ toString months ++ " months old"

/-- Embeds `CalculateAgeString` from main.go.  Notes on the embedding:
  * `photoDate.Sub(birthday).Hours() / 24` truncated to `int` equals the
    floor of the second difference divided by 86400 for every whole-second
    pair in range (the float error is far below the one-second granularity),
    and the difference is non-negative past the `Before` guard, so floor
    division is the truncating Go division;
  * the `IsZero` guards compare against `goZeroTime`. -/
def CalculateAgeString (birthday photoDate : Int) : String :=
  if birthday = goZeroTime ∨ photoDate = goZeroTime then ""
  else if photoDate < birthday then ""
  else
    let totalDays := ((photoDate - birthday).fdiv secondsPerDay).toNat
    if totalDays < 7 then
      if totalDays = 0 then "Newborn"
      else if totalDays = 1 then "1 day old"
      else toString totalDays ++ " days old"
    else if totalDays < 60 then
      let weeks := totalDays / 7
      if weeks = 1 then "1 week old"
      else toString weeks ++ " weeks old"
    else
      let pd := dateOf photoDate
      let bd := dateOf birthday
      let yearDiff := pd.1 - bd.1
      let monthDiff := (pd.2.1 : Int) - (bd.2.1 : Int)
      let dayDiff := (pd.2.2 : Int) - (bd.2.2 : Int)
      let monthDiff := if dayDiff < 0 then monthDiff - 1 else monthDiff
      let yearDiff := if monthDiff < 0 then yearDiff - 1 else yearDiff
      let monthDiff := if monthDiff < 0 then monthDiff + 12 else monthDiff
      formatYearsMonthsOld yearDiff monthDiff

/-- The date-range formatting of `calculateClusterDatesAndAge`
(handlers_photos.go), written out from the Go `Format` layouts:
`"January 2, 2006"` is full month, unpadded day, comma, year; `"Jan 2"` and
`"Jan 2, 2006"` use the three-letter month. -/
def formatDateRange (mn mx : Int) : String :=
  let a := dateOf mn
  let b := dateOf mx
  if a.1 = b.1 ∧ a.2.1 = b.2.1 ∧ a.2.2 = b.2.2 then
    monthName a.2.1 ++ " " ++ toString a.2.2 ++ ", " ++ toString a.1
  else if a.1 = b.1 ∧ a.2.1 = b.2.1 then
    monthName a.2.1 ++ " " ++ toString a.2.2 ++ "-" ++ toString b.2.2 ++ ", " ++ toString a.1
  else if a.1 = b.1 then
    monthAbbrev a.2.1 ++ " " ++ toString a.2.2 ++ " - " ++
      monthAbbrev b.2.1 ++ " " ++ toString b.2.2 ++ ", " ++ toString b.1
  else
    monthAbbrev a.2.1 ++ " " ++ toString a.2.2 ++ ", " ++ toString a.1 ++ " - " ++
      monthAbbrev b.2.1 ++ " " ++ toString b.2.2 ++ ", " ++ toString b.1

/-- The min/max scan of `calculateClusterDatesAndAge` over the `takenAt`
values of the cluster photos (`none` stands both for a photo missing from
`photoMap` and for an invalid `TakenAt`).  `Before`/`After` are the strict
comparisons of the Go code. -/
def minMaxTaken (taken : List (Option Int)) : Option (Int × Int) :=
  taken.foldl
    (fun acc t =>
      match t with
      | none => acc
      | some v =>
          match acc with
          | none => some (v, v)
          | some (mn, mx) =>
              some ((if v < mn then v else mn), (if mx < v then v else mx)))
    none

/-- Embeds `calculateClusterDatesAndAge` from handlers_photos.go: the pair
(dateRange, ageString) for a photo set and an optional child birthday.
The age midpoint `minDate.Add(maxDate.Sub(minDate) / 2)` truncates the Go
duration at nanoseconds; modelling it at second granularity
(`Int.ediv _ 2`, difference non-negative) loses at most half a second,
which can never move the midpoint across a birthday comparison, a day
boundary, or the zero instant for whole-second inputs. -/
def calculateClusterDatesAndAge (taken : List (Option Int))
    (childBirthday : Option Int) : String × String :=
  match minMaxTaken taken with
  | none => ("", "")
  | some (mn, mx) =>
      let dateRange := formatDateRange mn mx
      let ageString :=
        match childBirthday with
        | none => ""
        | some b => CalculateAgeString b (mn + Int.ediv (mx - mn) 2)
      (dateRange, ageString)

/-! ## Spec-side comparison functions (refinement targets)

These two definitions follow the wording of spec §4.4; they exist to be
compared with the embedded code (`CalculateAgeString`, `formatDateRange`)
and are deliberately not used by the code embedding. -/

/-- The age banding of spec §4.4, with the day count taken calendar-aware:
the difference of civil day numbers of the midpoint and the birthday.
Bands: 0 days, 1 to 6 days, 7 to 59 days, then whole calendar years and
months (same-day-of-month completion rule) with the exact singular and
plural renderings listed in the spec. -/
def specAgeString (birthday midpoint : Int) : String :=
  if midpoint < birthday then ""
  else
    let days :=
      (Int.fdiv midpoint secondsPerDay - Int.fdiv birthday secondsPerDay).toNat
    if days = 0 then "Newborn"
    else if days ≤ 6 then
      if days = 1 then "1 day old" else toString days ++ " days old"
    else if days ≤ 59 then
      if days / 7 = 1 then "1 week old" else toString (days / 7) ++ " weeks old"
    else
      let pd := dateOf midpoint
      let bd := dateOf birthday
      let years0 := pd.1 - bd.1
      let months0 := (pd.2.1 : Int) - (bd.2.1 : Int) -
        (if (pd.2.2 : Int) < (bd.2.2 : Int) then 1 else 0)
      let years := if months0 < 0 then years0 - 1 else years0
      let months := if months0 < 0 then months0 + 12 else months0
      formatYearsMonthsOld years months

/-- The date-range format of spec §4.4, amended only in the dash character:
the code separates day ranges with the ASCII hyphen-minus, not the en
dash of the spec text. -/
def specDateRange (mn mx : Int) : String :=
  let a := dateOf mn
  let b := dateOf mx
  if a = b then
    monthName a.2.1 ++ " " ++ toString a.2.2 ++ ", " ++ toString a.1
  else if a.1 = b.1 ∧ a.2.1 = b.2.1 then
    monthName a.2.1 ++ " " ++ toString a.2.2 ++ "-" ++ toString b.2.2 ++ ", " ++
      toString a.1
  else if a.1 = b.1 then
    monthAbbrev a.2.1 ++ " " ++ toString a.2.2 ++ " - " ++
      monthAbbrev b.2.1 ++ " " ++ toString b.2.2 ++ ", " ++ toString b.1
  else
    monthAbbrev a.2.1 ++ " " ++ toString a.2.2 ++ ", " ++ toString a.1 ++ " - " ++
      monthAbbrev b.2.1 ++ " " ++ toString b.2.2 ++ ", " ++ toString b.1

/-! ## The SQL store (database.go) and the draft/photo handlers

The PostgreSQL tables are embedded as lists of records; a WHERE clause
becomes a filter, an UPDATE a map, a DELETE a filter, and the
`ON DELETE CASCADE` clauses of the junction tables (`cluster_photos`,
`draft_photos`) are applied with each photo or draft row deletion.
Columns that no claim observes (`filename`, sizes, dimensions,
`created_at`/`updated_at` bookkeeping) are omitted; row order models
insertion order.  Authentication and `GetOrCreateUser` are external: the
handlers receive the resolved database user id directly.  GCS is the
`storage` list of object paths. -/

/-- A `photos` table row (models_db.go `DBPhoto`; timestamps in UTC Unix
seconds). -/
structure DBPhoto where
  id : String
  userId : String
  gcsPath : String
  thumbGcsPath : Option String
  takenAt : Option Int
  deletedAt : Option Int
deriving Repr, DecidableEq

/-- A `clusters` table row (models_db.go `DBCluster`). -/
structure DBCluster where
  id : String
  userId : String
  title : Option String
  description : Option String
  theme : Option String
  date : Option String
deriving Repr, DecidableEq

/-- A `page_drafts` table row (models_db.go `DBPageDraft`). -/
structure DBPageDraft where
  id : String
  userId : String
  clusterId : Option String
  title : Option String
  description : Option String
  theme : Option String
  backgroundGcsPath : Option String
  status : String
deriving Repr, DecidableEq

/-- The durable state: the four tables the claims observe plus the set of
GCS objects. -/
structure DBState where
  photos : List DBPhoto
  clusters : List DBCluster
  clusterPhotos : List (String × String)
  drafts : List DBPageDraft
  draftPhotos : List (String × String)
  storage : List String
deriving Repr, DecidableEq

/-- The JSON body of a draft PUT (`PageDraft` in models_api): the fields
`handleUpdateDraft` reads from the decoded request. -/
structure DraftRequest where
  photoIds : List String
  title : String
  description : String
  theme : String
  status : String
deriving Repr, DecidableEq

/-- Outcome of a handler, by HTTP status class.  `conflict` is never
produced by the code; the constructor exists so that the Conflict
behaviour the spec demands can be stated. -/
inductive ApiResult where
  | ok
  | okDraft (draft : DBPageDraft)
  | notFound
  | forbidden
  | badRequest
  | conflict
  | serverError
deriving Repr, DecidableEq

/-- A state-mutating interaction of a handler with the store or GCS, in
execution order. -/
inductive StoreEvent where
  | storageDeleted (gcsPath thumbPath : String)
  | photoRowsDeleted (ids : List String)
  | draftRowDeleted (draftId : String)
  | draftUpdated (draftId : String) (status : String)
deriving Repr, DecidableEq

/-- Embeds `GetPhotoByID` (database.go): `WHERE id = $1 AND deleted_at IS NULL` —
note the absence of a user filter. -/
def GetPhotoByID (s : DBState) (photoId : String) : Option DBPhoto :=
  s.photos.find? (fun p => p.id == photoId && p.deletedAt == none)

/-- Embeds `GetPhotosByUser` (database.go): `WHERE user_id = $1 AND deleted_at IS
NULL` (the `ORDER BY created_at DESC` clause is not modelled). -/
def GetPhotosByUser (s : DBState) (userId : String) : List DBPhoto :=
  s.photos.filter (fun p => p.userId == userId && p.deletedAt == none)

/-- Embeds `GetPhotosByIDs` (database.go): `WHERE user_id = $1 AND id = ANY($2)
AND deleted_at IS NULL`. -/
def GetPhotosByIDs (s : DBState) (userId : String) (photoIds : List String) :
    List DBPhoto :=
  s.photos.filter
    (fun p => p.userId == userId && photoIds.contains p.id && p.deletedAt == none)

/-- Embeds `SoftDeletePhoto` (database.go): sets `deleted_at = NOW()` on the row
matching id, user and `deleted_at IS NULL`; `none` models the
rows-affected-zero error ("photo not found or already deleted"). -/
def SoftDeletePhoto (s : DBState) (userId photoId : String) (now : Int) :
    Option DBState :=
  if s.photos.any
      (fun p => p.id == photoId && p.userId == userId && p.deletedAt == none) then
    some { s with photos := s.photos.map (fun p =>
      if p.id == photoId && p.userId == userId && p.deletedAt == none then
        { p with deletedAt := some now }
      else p) }
  else none

/-- Embeds `HardDeletePhotos` (database.go): `DELETE FROM photos WHERE id =
ANY($1)`, with the `ON DELETE CASCADE` of `cluster_photos.photo_id` and
`draft_photos.photo_id` (`page_photos` is not modelled). -/
def HardDeletePhotos (s : DBState) (photoIds : List String) : DBState :=
  { s with
    photos := s.photos.filter (fun p => !(photoIds.contains p.id)),
    clusterPhotos := s.clusterPhotos.filter (fun cp => !(photoIds.contains cp.2)),
    draftPhotos := s.draftPhotos.filter (fun dp => !(photoIds.contains dp.2)) }

/-- Embeds `GetPhotoPathsByIDs` (database.go): id, `gcs_path` and
`COALESCE(thumb_gcs_path, '')` of the rows with id in the list. -/
def GetPhotoPathsByIDs (s : DBState) (photoIds : List String) :
    List (String × String) :=
  (s.photos.filter (fun p => photoIds.contains p.id)).map
    (fun p => (p.gcsPath, p.thumbGcsPath.getD ""))

/-- Embeds `Storage.DeletePhoto` (storage.go): removes the original and the
thumbnail object, each skipped when its path is empty; errors are logged
and swallowed (`return nil`). -/
def storageDeletePhoto (objs : List String) (gcsPath thumbPath : String) :
    List String :=
  let objs := if gcsPath ≠ "" then objs.filter (fun o => o ≠ gcsPath) else objs
  if thumbPath ≠ "" then objs.filter (fun o => o ≠ thumbPath) else objs

/-- Embeds `deletePhotosFromStorageAndDB` (handlers_drafts.go): for a non-empty id
list, look up the GCS paths, delete each photo from GCS (failures only
logged), then hard-delete the rows.  The returned event list records the
mutation order. -/
def deletePhotosFromStorageAndDB (s : DBState) (photoIds : List String) :
    DBState × List StoreEvent :=
  if photoIds = [] then (s, [])
  else
    let paths := GetPhotoPathsByIDs s photoIds
    let s1 := { s with
      storage := paths.foldl (fun st p => storageDeletePhoto st p.1 p.2) s.storage }
    let s2 := HardDeletePhotos s1 photoIds
    (s2, paths.map (fun p => StoreEvent.storageDeleted p.1 p.2) ++
      [StoreEvent.photoRowsDeleted photoIds])

/-- Embeds `GetDraftByID` (database.go): `WHERE id = $1`, no user filter. -/
def GetDraftByID (s : DBState) (draftId : String) : Option DBPageDraft :=
  s.drafts.find? (fun d => d.id == draftId)

/-- Embeds `GetDraftPhotos` (database.go): photo ids of `draft_photos` rows for
the draft (`ORDER BY position` is the list order). -/
def GetDraftPhotos (s : DBState) (draftId : String) : List String :=
  (s.draftPhotos.filter (fun dp => dp.1 == draftId)).map (fun dp => dp.2)

/-- Embeds `GetDraftAllPhotoIDs` (database.go): reads the draft's `cluster_id`
(`none` models the scan error when the draft row is missing); with a
cluster the original membership comes from `cluster_photos`, otherwise
from `draft_photos`. -/
def GetDraftAllPhotoIDs (s : DBState) (draftId : String) :
    Option (List String) :=
  match s.drafts.find? (fun d => d.id == draftId) with
  | none => none
  | some d =>
      match d.clusterId with
      | none => some (GetDraftPhotos s draftId)
      | some cid =>
          some ((s.clusterPhotos.filter (fun cp => cp.1 == cid)).map
            (fun cp => cp.2))

/-- Embeds `UpdateDraft` (database.go): an unconditional `UPDATE page_drafts SET
... WHERE id = $6 AND user_id = $7`; zero affected rows is still a
success (`Exec` without a rows check). -/
def UpdateDraft (s : DBState) (draft : DBPageDraft) : DBState :=
  { s with drafts := s.drafts.map (fun d =>
      if d.id == draft.id && d.userId == draft.userId then draft else d) }

/-- Embeds `DeleteDraft` (database.go): `DELETE FROM page_drafts WHERE id = $1 AND
user_id = $2` with the `draft_photos.draft_id` cascade; `none` models the
rows-affected-zero error ("draft not found"). -/
def DeleteDraft (s : DBState) (userId draftId : String) : Option DBState :=
  if s.drafts.any (fun d => d.id == draftId && d.userId == userId) then
    some { s with
      drafts := s.drafts.filter (fun d => !(d.id == draftId && d.userId == userId)),
      draftPhotos := s.draftPhotos.filter (fun dp => !(dp.1 == draftId)) }
  else none

/-- Embeds `handleDeleteDraft` (handlers_drafts.go), the discard operation: read
the draft's full membership (error degrades to the empty list), delete
the draft row (404 on failure), then delete every membership photo from
GCS and the database. -/
def handleDeleteDraft (s : DBState) (userId draftId : String) :
    DBState × ApiResult × List StoreEvent :=
  let allPhotoIds := (GetDraftAllPhotoIDs s draftId).getD []
  match DeleteDraft s userId draftId with
  | none => (s, ApiResult.notFound, [])
  | some s1 =>
      if allPhotoIds ≠ [] then
        let (s2, tr) := deletePhotosFromStorageAndDB s1 allPhotoIds
        (s2, ApiResult.ok, StoreEvent.draftRowDeleted draftId :: tr)
      else (s1, ApiResult.ok, [StoreEvent.draftRowDeleted draftId])

/-- The approve branch of `handleUpdateDraft` (handlers_drafts.go, URL
`/api/drafts/id/approve`): diff the authoritative membership against the
request's kept ids, delete the discarded photos, then write the draft
with status "approved" (request fields only override when non-empty).
The body-decode failure path (400) is outside the model: the request is
already structured. -/
def handleApproveDraft (s : DBState) (userId draftId : String)
    (req : DraftRequest) : DBState × ApiResult × List StoreEvent :=
  match GetDraftByID s draftId with
  | none => (s, ApiResult.notFound, [])
  | some d =>
      if d.userId ≠ userId then (s, ApiResult.forbidden, [])
      else
        let original := (GetDraftAllPhotoIDs s draftId).getD []
        let discarded := original.filter (fun pid => !(req.photoIds.contains pid))
        let step :=
          if discarded ≠ [] then deletePhotosFromStorageAndDB s discarded
          else (s, [])
        let d1 := { d with
          status := "approved",
          title := if req.title ≠ "" then some req.title else d.title,
          description :=
            if req.description ≠ "" then some req.description else d.description,
          theme := if req.theme ≠ "" then some req.theme else d.theme }
        (UpdateDraft step.1 d1, ApiResult.okDraft d1,
          step.2 ++ [StoreEvent.draftUpdated draftId d1.status])

/-- The regular-update branch of `handleUpdateDraft` (handlers_drafts.go,
URL `/api/drafts/id`): overwrite title, description and theme with the
request values (empty string clears the column to NULL), overwrite the
status when the request carries one, with no check of the current
status. -/
def handleEditDraft (s : DBState) (userId draftId : String)
    (req : DraftRequest) : DBState × ApiResult × List StoreEvent :=
  match GetDraftByID s draftId with
  | none => (s, ApiResult.notFound, [])
  | some d =>
      if d.userId ≠ userId then (s, ApiResult.forbidden, [])
      else
        let d1 := { d with
          title := if req.title == "" then none else some req.title,
          description := if req.description == "" then none else some req.description,
          theme := if req.theme == "" then none else some req.theme,
          status := if req.status ≠ "" then req.status else d.status }
        (UpdateDraft s d1, ApiResult.okDraft d1,
          [StoreEvent.draftUpdated draftId d1.status])

/-- Embeds `HandleDeletePhoto` (handlers_photos.go): load the photo (soft-deleted
rows are invisible, so they give 404), check ownership (403), then soft
delete; GCS objects are deliberately kept ("We do NOT delete from GCS
immediately to allow recovery"). -/
def HandleDeletePhoto (s : DBState) (userId photoId : String) (now : Int) :
    DBState × ApiResult :=
  match GetPhotoByID s photoId with
  | none => (s, ApiResult.notFound)
  | some p =>
      if p.userId ≠ userId then (s, ApiResult.forbidden)
      else
        match SoftDeletePhoto s userId photoId now with
        | none => (s, ApiResult.serverError)
        | some s1 => (s1, ApiResult.ok)

/-- True when the event is a photo deletion (GCS object or database rows). -/
def isPhotoDeletionEvent : StoreEvent → Bool
  | .storageDeleted _ _ => true
  | .photoRowsDeleted _ => true
  | _ => false

/-- True when the event is the draft status write. -/
def isStatusUpdateEvent : StoreEvent → Bool
  | .draftUpdated _ _ => true
  | _ => false

/-- The ordering property of spec §4.3 step 5/6: no photo deletion happens
before the first draft status write of the trace. -/
def statusCommitBeforeDeletions (tr : List StoreEvent) : Bool :=
  (tr.takeWhile (fun e => !(isStatusUpdateEvent e))).all
    (fun e => !(isPhotoDeletionEvent e))

/-! ### Concrete store states for counterexamples and witnesses -/

/-- A photo row of user "u" with a thumbnail. -/
def samplePhoto1 : DBPhoto :=
  { id := "p1", userId := "u", gcsPath := "g1", thumbGcsPath := some "t1",
    takenAt := none, deletedAt := none }

/-- A second photo row of user "u", no thumbnail. -/
def samplePhoto2 : DBPhoto :=
  { id := "p2", userId := "u", gcsPath := "g2", thumbGcsPath := none,
    takenAt := none, deletedAt := none }

/-- The cluster row grouping the two sample photos. -/
def sampleCluster : DBCluster :=
  { id := "c", userId := "u", title := some "T", description := none,
    theme := some "love", date := none }

/-- The draft of the sample cluster, parametrised by its status. -/
def sampleDraft (status : String) : DBPageDraft :=
  { id := "d", userId := "u", clusterId := some "c", title := some "T",
    description := none, theme := some "love", backgroundGcsPath := none,
    status := status }

/-- A store with one user "u", photos p1 and p2 in cluster "c", and draft
"d" over that cluster in the given status. -/
def sampleState (status : String) : DBState :=
  { photos := [samplePhoto1, samplePhoto2],
    clusters := [sampleCluster],
    clusterPhotos := [("c", "p1"), ("c", "p2")],
    drafts := [sampleDraft status],
    draftPhotos := [("d", "p1"), ("d", "p2")],
    storage := ["g1", "t1", "g2"] }

/-- A store for the photo-deletion claims: "alice" owns a live photo "pa"
and a soft-deleted photo "pd"; "bob" owns live photo "pb". -/
def photoSampleState : DBState :=
  { photos :=
      [{ id := "pa", userId := "alice", gcsPath := "ga", thumbGcsPath := none,
         takenAt := none, deletedAt := none },
       { id := "pd", userId := "alice", gcsPath := "gd", thumbGcsPath := none,
         takenAt := none, deletedAt := some 1000 },
       { id := "pb", userId := "bob", gcsPath := "gb", thumbGcsPath := none,
         takenAt := none, deletedAt := none }],
    clusters := [], clusterPhotos := [], drafts := [], draftPhotos := [],
    storage := ["ga", "gd", "gb"] }

/-- The store after "alice" deletes her live photo "pa". -/
def photoSampleStateAfter : DBState :=
  (HandleDeletePhoto photoSampleState "alice" "pa" 42).1

/-! ## Theorems

One theorem (plus, where needed, a counterexample and a witness) per claim
of the specification review, preceded by shared helper lemmas. -/

section Lemmas

/-- Every id produced by the group repair comes from the input batch. -/
theorem mem_of_mem_repairGroupIds {batch : List String} {g : ClassifierGroup}
    {id : String} (h : id ∈ repairGroupIds batch g) : id ∈ batch := by
  unfold repairGroupIds at h
  rcases List.mem_map.1 h with ⟨idx, hidx, rfl⟩
  rcases List.mem_filter.1 hidx with ⟨-, hcond⟩
  have h0 : 0 ≤ idx ∧ idx < (batch.length : Int) := by
    simpa using hcond
  have hlt : idx.toNat < batch.length := by omega
  rw [List.getD_eq_getElem _ _ hlt]
  exact List.getElem_mem hlt

/-- Membership in the repaired cluster list: a non-empty repaired id list
for some group. -/
theorem mem_repairClusters {batch : List String} {groups : List ClassifierGroup}
    {c : PhotoCluster} (h : c ∈ repairClusters batch groups) :
    ∃ g ∈ groups, repairGroupIds batch g ≠ [] ∧
      c.photoIds = repairGroupIds batch g := by
  unfold repairClusters at h
  rcases List.mem_filterMap.1 h with ⟨g, hg, hsome⟩
  by_cases hids : repairGroupIds batch g = []
  · simp [hids] at hsome
  · refine ⟨g, hg, hids, ?_⟩
    simp only [hids, if_false] at hsome
    rcases Option.some.inj hsome with rfl
    rfl

end Lemmas

/-- C5 (counterexample): the repair step does not partition the batch.  For
batch ["a", "b", "c"] and a classifier output whose two groups both name
index 0, the produced clusters are ["a"] and ["a"]: id "a" sits in two
clusters and ids "b" and "c" are in none, so the union is not the batch. -/
theorem C5_repair_partition_counterexample :
    okClusters (AnalyzeAndClusterPhotos ["a", "b", "c"]
        (some [{ photoIndexes := [0], title := "t1", description := "d1", theme := "cozy" },
               { photoIndexes := [0], title := "t2", description := "d2", theme := "love" }])) =
      [{ photoIds := ["a"], theme := "cozy", title := "t1", description := "d1" },
       { photoIds := ["a"], theme := "love", title := "t2", description := "d2" }] ∧
    coversBatchExactly
      (okClusters (AnalyzeAndClusterPhotos ["a", "b", "c"]
        (some [{ photoIndexes := [0], title := "t1", description := "d1", theme := "cozy" },
               { photoIndexes := [0], title := "t2", description := "d2", theme := "love" }])))
      ["a", "b", "c"] = false := by
  constructor
  · rfl
  · decide

/-- C5 (amended): the repair step only guarantees that every produced
cluster is non-empty and draws all its ids from the input batch;
out-of-range indexes are dropped and empty groups discarded, but ids the
classifier omits are lost and ids named by several groups (or twice in
one group) are duplicated, so the clusters need not partition the batch
(exact coverage holds only on the fallback path). -/
theorem C5_repair_subset_amended (batch : List String)
    (groups : List ClassifierGroup) (cs : List PhotoCluster)
    (h : AnalyzeAndClusterPhotos batch (some groups) = .ok cs) :
    ∀ c ∈ cs, c.photoIds ≠ [] ∧ ∀ id ∈ c.photoIds, id ∈ batch := by
  unfold AnalyzeAndClusterPhotos at h
  by_cases hrep : repairClusters batch groups = []
  · simp only [hrep, if_pos] at h
    rcases Except.ok.inj h with rfl
    intro c hc
    unfold CreateMockClusters at hc
    by_cases hb : batch = []
    · simp [hb] at hc
    · simp only [hb, if_false] at hc
      rcases List.mem_singleton.1 hc with rfl
      exact ⟨hb, fun id hid => hid⟩
  · simp only [hrep, if_false] at h
    rcases Except.ok.inj h with rfl
    intro c hc
    rcases mem_repairClusters hc with ⟨g, -, hne, hids⟩
    rw [hids]
    exact ⟨hne, fun id hid => mem_of_mem_repairGroupIds hid⟩

/-- C5 (witness): the amended guarantee at a concrete input — a group with
an out-of-range index still yields a non-empty cluster wholly inside the
batch. -/
theorem C5_repair_subset_witness :
    AnalyzeAndClusterPhotos ["a", "b"]
        (some [{ photoIndexes := [1, 7], title := "t", description := "d", theme := "cozy" }]) =
      .ok [{ photoIds := ["b"], theme := "cozy", title := "t", description := "d" }] ∧
    (PhotoCluster.mk ["b"] "cozy" "t" "d").photoIds ≠ [] ∧
    ("b" : String) ∈ ["a", "b"] := by
  have h := C5_repair_subset_amended ["a", "b"]
    [{ photoIndexes := [1, 7], title := "t", description := "d", theme := "cozy" }]
    [{ photoIds := ["b"], theme := "cozy", title := "t", description := "d" }] rfl
    (PhotoCluster.mk ["b"] "cozy" "t" "d") (by decide)
  exact ⟨rfl, h.1, h.2 "b" (by decide)⟩

/-- C6: for a non-empty batch, whenever the classifier is unreachable or
errors (`none`) or its parsed output repairs to zero usable groups, the
clustering returns success with exactly one cluster holding the whole
batch in input order, theme "love" and the fixed generic title and
description. -/
theorem C6_fallback_single_cluster (batch : List String)
    (output : Option (List ClassifierGroup)) (hne : batch ≠ [])
    (hfail : output = none ∨
      ∃ groups, output = some groups ∧ repairClusters batch groups = []) :
    AnalyzeAndClusterPhotos batch output =
      .ok [{ photoIds := batch, theme := "love", title := "Precious Moments",
             description := mockClusterDescription }] := by
  have hmock : CreateMockClusters batch =
      [{ photoIds := batch, theme := "love", title := "Precious Moments",
         description := mockClusterDescription }] := by
    unfold CreateMockClusters
    simp [hne]
  rcases hfail with rfl | ⟨groups, rfl, hrep⟩
  · simp [AnalyzeAndClusterPhotos, hmock]
  · simp [AnalyzeAndClusterPhotos, hrep, hmock]

/-- C6 (witness): the fallback at a concrete input, both for a classifier
failure and for an output whose only group is out of range. -/
theorem C6_fallback_witness :
    AnalyzeAndClusterPhotos ["a", "b"] none =
      .ok [{ photoIds := ["a", "b"], theme := "love", title := "Precious Moments",
             description := mockClusterDescription }] ∧
    AnalyzeAndClusterPhotos ["a", "b"]
        (some [{ photoIndexes := [5], title := "t", description := "d", theme := "cozy" }]) =
      .ok [{ photoIds := ["a", "b"], theme := "love", title := "Precious Moments",
             description := mockClusterDescription }] := by
  constructor
  · exact C6_fallback_single_cluster ["a", "b"] none (by decide) (Or.inl rfl)
  · exact C6_fallback_single_cluster ["a", "b"]
      (some [{ photoIndexes := [5], title := "t", description := "d", theme := "cozy" }])
      (by decide) (Or.inr ⟨_, rfl, by decide⟩)

set_option maxHeartbeats 2000000 in
/-- C8: the age string is computed only when a birthday is given; it is
`CalculateAgeString` of the midpoint of [min, max] of the known takenAt
values; and for every birthday that is a calendar date (midnight UTC on
or after 1970-01-01, which is what the settings handler stores by parsing
"YYYY-MM-DD"), the code's duration-based day count agrees with the
calendar-aware banding of the spec (`specAgeString`), including emptiness
when the midpoint precedes the birthday and the exact singular/plural
renderings. -/
theorem C8_age_calendar_aware :
    (∀ taken, (calculateClusterDatesAndAge taken none).2 = "") ∧
    (∀ taken b mn mx, minMaxTaken taken = some (mn, mx) →
        (calculateClusterDatesAndAge taken (some b)).2 =
          CalculateAgeString b (mn + Int.ediv (mx - mn) 2)) ∧
    (∀ k t, 0 ≤ k →
        CalculateAgeString (secondsPerDay * k) t =
          specAgeString (secondsPerDay * k) t) := by
  refine ⟨?_, ?_, ?_⟩
  · intro taken
    rcases h : minMaxTaken taken with _ | ⟨mn, mx⟩
    · simp [calculateClusterDatesAndAge, h]
    · simp [calculateClusterDatesAndAge, h]
  · intro taken b mn mx h
    simp [calculateClusterDatesAndAge, h]
  · intro k t hk
    have hspd : (0:Int) < secondsPerDay := by norm_num [secondsPerDay]
    have hb0 : 0 ≤ secondsPerDay * k := mul_nonneg hspd.le hk
    have hgz : goZeroTime < 0 := by norm_num [goZeroTime]
    have hbz : secondsPerDay * k ≠ goZeroTime := by omega
    by_cases htz : t = goZeroTime
    · subst htz
      have hlt : goZeroTime < secondsPerDay * k := by omega
      unfold CalculateAgeString specAgeString
      rw [if_pos (Or.inr rfl), if_pos hlt]
    · unfold CalculateAgeString specAgeString
      rw [if_neg (not_or.mpr ⟨hbz, htz⟩)]
      by_cases hlt : t < secondsPerDay * k
      · rw [if_pos hlt, if_pos hlt]
      · rw [if_neg hlt, if_neg hlt]
        have hfd : (t - secondsPerDay * k).fdiv secondsPerDay =
            t.fdiv secondsPerDay - k := by
          rw [Int.fdiv_eq_ediv _ hspd.le, Int.fdiv_eq_ediv _ hspd.le]
          simp only [secondsPerDay]
          omega
        have hfb : (secondsPerDay * k).fdiv secondsPerDay = k :=
          Int.mul_fdiv_cancel_left k (by norm_num [secondsPerDay])
        rw [hfd, hfb]
        generalize (t.fdiv secondsPerDay - k).toNat = D
        generalize dateOf t = pd
        generalize dateOf (secondsPerDay * k) = bd
        obtain ⟨py, pm, pdy⟩ := pd
        obtain ⟨qy, qm, qdy⟩ := bd
        simp only
        split_ifs <;>
          first
            | rfl
            | omega
            | (congr 1
               omega)

/-- C8 (witness): the agreement at concrete inputs — birthday 2024-01-01,
midpoint 2025-02-15 renders "1 year, 1 month old" on both sides, and the
wiring through `calculateClusterDatesAndAge` with photos taken 2024-06-10
and 2024-06-20 uses the midpoint 2024-06-15. -/
theorem C8_age_witness :
    (CalculateAgeString (secondsPerDay * daysFromCivil 2024 1 1)
        (midnightOf 2025 2 15) =
      specAgeString (secondsPerDay * daysFromCivil 2024 1 1)
        (midnightOf 2025 2 15)) ∧
    (CalculateAgeString (secondsPerDay * daysFromCivil 2024 1 1)
        (midnightOf 2025 2 15) = "1 year, 1 month old") ∧
    ((calculateClusterDatesAndAge
        [some (midnightOf 2024 6 10), none, some (midnightOf 2024 6 20)]
        (some (midnightOf 2024 1 1))).2 =
      CalculateAgeString (midnightOf 2024 1 1) (midnightOf 2024 6 15)) := by
  refine ⟨?_, by decide, ?_⟩
  · exact C8_age_calendar_aware.2.2 (daysFromCivil 2024 1 1)
      (midnightOf 2025 2 15) (by decide)
  · have h := C8_age_calendar_aware.2.1
      [some (midnightOf 2024 6 10), none, some (midnightOf 2024 6 20)]
      (midnightOf 2024 1 1) (midnightOf 2024 6 10) (midnightOf 2024 6 20)
      (by decide)
    rw [h]
    decide

/-- The min/max fold, once seeded with a value, never returns to `none`. -/
theorem foldl_minMax_ne_none (taken : List (Option Int)) :
    ∀ p : Int × Int,
      taken.foldl
        (fun acc t =>
          match t with
          | none => acc
          | some v =>
              match acc with
              | none => some (v, v)
              | some (mn, mx) =>
                  some ((if v < mn then v else mn), (if mx < v then v else mx)))
        (some p) ≠ none := by
  induction taken with
  | nil => intro p; simp
  | cons t ts ih =>
      intro p
      obtain ⟨mn, mx⟩ := p
      cases t with
      | none => simpa using ih (mn, mx)
      | some v =>
          simpa using ih ((if v < mn then v else mn), (if mx < v then v else mx))

/-- The min/max scan finds nothing exactly when no photo has a timestamp. -/
theorem minMaxTaken_eq_none_iff (taken : List (Option Int)) :
    minMaxTaken taken = none ↔ ∀ x ∈ taken, x = none := by
  induction taken with
  | nil => simp [minMaxTaken]
  | cons t ts ih =>
      cases t with
      | none =>
          simp only [minMaxTaken, List.foldl_cons] at ih ⊢
          simp only [List.mem_cons]
          constructor
          · intro h x hx
            rcases hx with rfl | hx
            · rfl
            · exact (ih.1 h) x hx
          · intro h
            exact ih.2 (fun x hx => h x (Or.inr hx))
      | some v =>
          simp only [minMaxTaken, List.foldl_cons]
          constructor
          · intro h
            exact absurd h (foldl_minMax_ne_none ts (v, v))
          · intro h
            exact absurd (h (some v) (List.mem_cons_self _ _)) (by simp)

/-- The embedded date-range formatter agrees with the spec §4.4 format list
amended to the ASCII hyphen-minus. -/
theorem formatDateRange_eq_spec (mn mx : Int) :
    formatDateRange mn mx = specDateRange mn mx := by
  unfold formatDateRange specDateRange
  generalize dateOf mn = a
  generalize dateOf mx = b
  obtain ⟨ay, am, ad⟩ := a
  obtain ⟨by_, bm, bd⟩ := b
  simp only [Prod.mk.injEq]

/-- C9 (counterexample): the spec demands "June 10–20, 2024" (en dash)
character for character for the photo set taken 2024-06-10 and
2024-06-20, but the code prints the ASCII hyphen-minus. -/
theorem C9_dateRange_counterexample :
    (calculateClusterDatesAndAge
        [some (midnightOf 2024 6 10), some (midnightOf 2024 6 20)] none).1 ≠
      "June 10–20, 2024" := by decide

/-- C9 (amended): the date range is empty when no takenAt value is known,
and otherwise formats [min, max] by the spec's four cases with the ASCII
hyphen-minus as the range dash: same day "Month D, YYYY"; same month
"Month D-D, YYYY"; same year "Mon D - Mon D, YYYY"; different years
"Mon D, YYYY - Mon D, YYYY". -/
theorem C9_dateRange_amended :
    (∀ taken b, (∀ x ∈ taken, x = none) →
        (calculateClusterDatesAndAge taken b).1 = "") ∧
    (∀ taken b mn mx, minMaxTaken taken = some (mn, mx) →
        (calculateClusterDatesAndAge taken b).1 = specDateRange mn mx) := by
  constructor
  · intro taken b h
    have hn : minMaxTaken taken = none := (minMaxTaken_eq_none_iff taken).2 h
    simp [calculateClusterDatesAndAge, hn]
  · intro taken b mn mx h
    simp only [calculateClusterDatesAndAge, h]
    exact formatDateRange_eq_spec mn mx

/-- C9 (witness): the amended formats at the spec's own §8 inputs. -/
theorem C9_dateRange_witness :
    ((calculateClusterDatesAndAge
        [some (midnightOf 2024 6 10), some (midnightOf 2024 6 20)] none).1 =
      "June 10-20, 2024") ∧
    ((calculateClusterDatesAndAge
        [some (midnightOf 2024 12 31), some (midnightOf 2025 1 2)] none).1 =
      "Dec 31, 2024 - Jan 2, 2025") ∧
    ((calculateClusterDatesAndAge [none, none] (some 0)).1 = "") := by
  refine ⟨?_, ?_, ?_⟩
  · rw [C9_dateRange_amended.2 _ none (midnightOf 2024 6 10)
      (midnightOf 2024 6 20) (by decide)]
    decide
  · rw [C9_dateRange_amended.2 _ none (midnightOf 2024 12 31)
      (midnightOf 2025 1 2) (by decide)]
    decide
  · exact C9_dateRange_amended.1 [none, none] (some 0) (by decide)

section StoreLemmas

/-- Photo deletion does not touch the `clusters` table. -/
theorem deletePhotos_clusters (s : DBState) (ids : List String) :
    (deletePhotosFromStorageAndDB s ids).1.clusters = s.clusters := by
  unfold deletePhotosFromStorageAndDB
  split <;> rfl

/-- Photo deletion does not touch the `page_drafts` table. -/
theorem deletePhotos_drafts (s : DBState) (ids : List String) :
    (deletePhotosFromStorageAndDB s ids).1.drafts = s.drafts := by
  unfold deletePhotosFromStorageAndDB
  split <;> rfl

/-- After photo deletion no remaining row has a deleted id, and every
remaining row was already present. -/
theorem mem_photos_deletePhotos {s : DBState} {ids : List String} {p : DBPhoto}
    (h : p ∈ (deletePhotosFromStorageAndDB s ids).1.photos) :
    p ∈ s.photos ∧ p.id ∉ ids := by
  unfold deletePhotosFromStorageAndDB at h
  by_cases hids : ids = []
  · rw [if_pos hids] at h
    exact ⟨h, by simp [hids]⟩
  · rw [if_neg hids] at h
    have h2 := List.mem_filter.1 h
    refine ⟨h2.1, ?_⟩
    simpa using h2.2

/-- A photo row whose id is not deleted survives photo deletion. -/
theorem photos_deletePhotos_of_not_mem {s : DBState} {ids : List String}
    {p : DBPhoto} (hp : p ∈ s.photos) (hid : p.id ∉ ids) :
    p ∈ (deletePhotosFromStorageAndDB s ids).1.photos := by
  unfold deletePhotosFromStorageAndDB
  by_cases hids : ids = []
  · rw [if_pos hids]; exact hp
  · rw [if_neg hids]
    exact List.mem_filter.2 ⟨hp, by simpa using hid⟩

/-- Every event emitted by photo deletion is a photo deletion event. -/
theorem deletePhotos_events {s : DBState} {ids : List String} {e : StoreEvent}
    (h : e ∈ (deletePhotosFromStorageAndDB s ids).2) :
    isPhotoDeletionEvent e = true := by
  unfold deletePhotosFromStorageAndDB at h
  by_cases hids : ids = []
  · rw [if_pos hids] at h
    simp at h
  · rw [if_neg hids] at h
    rcases List.mem_append.1 h with h1 | h1
    · rcases List.mem_map.1 h1 with ⟨q, -, rfl⟩
      rfl
    · rcases List.mem_singleton.1 h1 with rfl
      rfl

/-- A single GCS photo deletion only removes objects. -/
theorem mem_of_mem_storageDeletePhoto {objs : List String} {g th o : String}
    (h : o ∈ storageDeletePhoto objs g th) : o ∈ objs := by
  unfold storageDeletePhoto at h
  split at h
  · split at h
    · exact (List.mem_filter.1 (List.mem_filter.1 h).1).1
    · exact (List.mem_filter.1 h).1
  · split at h
    · exact (List.mem_filter.1 h).1
    · exact h

/-- A non-empty original path is gone after its GCS deletion. -/
theorem not_mem_storageDeletePhoto_self {objs : List String} {g th : String}
    (hg : g ≠ "") : g ∉ storageDeletePhoto objs g th := by
  unfold storageDeletePhoto
  rw [if_pos hg]
  intro hmem
  split at hmem
  · exact absurd (List.mem_filter.1 (List.mem_filter.1 hmem).1).2 (by simp)
  · exact absurd (List.mem_filter.1 hmem).2 (by simp)

/-- The GCS deletion loop only removes objects. -/
theorem mem_of_mem_foldl_storageDelete (paths : List (String × String)) :
    ∀ (objs : List String) (o : String),
      o ∈ paths.foldl (fun st q => storageDeletePhoto st q.1 q.2) objs →
        o ∈ objs := by
  induction paths with
  | nil => intro objs o h; exact h
  | cons q qs ih =>
      intro objs o h
      exact mem_of_mem_storageDeletePhoto (ih _ o h)

/-- The GCS deletion loop removes every listed non-empty original path. -/
theorem not_mem_foldl_storageDelete {paths : List (String × String)}
    {g th : String} (hmem : (g, th) ∈ paths) (hg : g ≠ "") :
    ∀ objs : List String,
      g ∉ paths.foldl (fun st q => storageDeletePhoto st q.1 q.2) objs := by
  induction paths with
  | nil => cases hmem
  | cons q qs ih =>
      intro objs
      rcases List.mem_cons.1 hmem with rfl | h2
      · intro hcontra
        exact not_mem_storageDeletePhoto_self hg
          (mem_of_mem_foldl_storageDelete qs _ g hcontra)
      · exact ih h2 _

/-- The `gcs_path` of every deleted photo row with a non-empty path is
removed from storage by photo deletion. -/
theorem gcsPath_not_mem_deletePhotos_storage {s : DBState} {ids : List String}
    {p : DBPhoto} (hp : p ∈ s.photos) (hid : p.id ∈ ids)
    (hg : p.gcsPath ≠ "") :
    p.gcsPath ∉ (deletePhotosFromStorageAndDB s ids).1.storage := by
  unfold deletePhotosFromStorageAndDB
  have hids : ids ≠ [] := by
    intro hnil
    rw [hnil] at hid
    cases hid
  rw [if_neg hids]
  have hpath : (p.gcsPath, p.thumbGcsPath.getD "") ∈ GetPhotoPathsByIDs s ids := by
    unfold GetPhotoPathsByIDs
    exact List.mem_map.2 ⟨p, List.mem_filter.2 ⟨hp, by simpa using hid⟩, rfl⟩
  exact not_mem_foldl_storageDelete hpath hg _

/-- Rows of the updated drafts table that carry the updated key are the
updated draft. -/
theorem mem_UpdateDraft_eq {s : DBState} {d1 drow : DBPageDraft}
    (h : drow ∈ (UpdateDraft s d1).drafts) (hid : drow.id = d1.id)
    (huser : drow.userId = d1.userId) : drow = d1 := by
  unfold UpdateDraft at h
  rcases List.mem_map.1 h with ⟨old, -, heq⟩
  by_cases hc : (old.id == d1.id && old.userId == d1.userId) = true
  · rw [if_pos hc] at heq
    exact heq.symm
  · rw [if_neg hc] at heq
    subst heq
    simp [hid, huser] at hc

/-- A found draft is a member with the searched id. -/
theorem GetDraftByID_props {s : DBState} {draftId : String} {d : DBPageDraft}
    (h : GetDraftByID s draftId = some d) : d ∈ s.drafts ∧ d.id = draftId := by
  unfold GetDraftByID at h
  refine ⟨List.mem_of_find?_eq_some h, ?_⟩
  have := List.find?_some h
  simpa using this

end StoreLemmas

/-- C1 (counterexample): discarding draft "d" of user "u" — whose cluster
"c" holds photos p1 and p2 — empties the photo table and the storage
bucket (the claim says photos and storage are untouched) and leaves the
cluster row in place (the claim says the cluster is removed). -/
theorem C1_discard_counterexample :
    (handleDeleteDraft (sampleState "draft") "u" "d").1.photos = [] ∧
    (sampleState "draft").photos ≠ [] ∧
    (handleDeleteDraft (sampleState "draft") "u" "d").1.storage = [] ∧
    (sampleState "draft").storage ≠ [] ∧
    sampleCluster ∈ (handleDeleteDraft (sampleState "draft") "u" "d").1.clusters := by
  refine ⟨by decide, by decide, by decide, by decide, by decide⟩

/-- C1 (amended): a successful discard deletes the draft row, leaves the
cluster row, and hard-deletes every photo of the draft's full membership
from the database and (for rows with a non-empty path) from storage;
photos outside the membership are untouched. -/
theorem C1_discard_amended (s : DBState) (userId draftId : String)
    (h : ∃ d ∈ s.drafts, d.id = draftId ∧ d.userId = userId) :
    (handleDeleteDraft s userId draftId).2.1 = ApiResult.ok ∧
    (handleDeleteDraft s userId draftId).1.clusters = s.clusters ∧
    (∀ d2 ∈ (handleDeleteDraft s userId draftId).1.drafts,
        ¬(d2.id = draftId ∧ d2.userId = userId)) ∧
    (∀ p ∈ (handleDeleteDraft s userId draftId).1.photos,
        p.id ∉ (GetDraftAllPhotoIDs s draftId).getD []) ∧
    (∀ p ∈ s.photos, p.id ∉ (GetDraftAllPhotoIDs s draftId).getD [] →
        p ∈ (handleDeleteDraft s userId draftId).1.photos) ∧
    (∀ p ∈ s.photos, p.id ∈ (GetDraftAllPhotoIDs s draftId).getD [] →
        p.gcsPath ≠ "" →
        p.gcsPath ∉ (handleDeleteDraft s userId draftId).1.storage) := by
  obtain ⟨d, hdmem, hdid, hduser⟩ := h
  have hany : (s.drafts.any fun x => x.id == draftId && x.userId == userId) = true :=
    List.any_eq_true.2 ⟨d, hdmem, by simp [hdid, hduser]⟩
  unfold handleDeleteDraft DeleteDraft
  rw [if_pos hany]
  dsimp only
  set ids := (GetDraftAllPhotoIDs s draftId).getD [] with hids
  set s1 : DBState := { s with
    drafts := s.drafts.filter (fun d => !(d.id == draftId && d.userId == userId)),
    draftPhotos := s.draftPhotos.filter (fun dp => !(dp.1 == draftId)) } with hs1
  by_cases hne : ids ≠ []
  · rw [if_pos hne]
    dsimp only
    refine ⟨rfl, ?_, ?_, ?_, ?_, ?_⟩
    · rw [deletePhotos_clusters]
    · intro d2 hd2
      rw [deletePhotos_drafts] at hd2
      have h2 := (List.mem_filter.1 hd2).2
      intro hcon
      simp [hcon.1, hcon.2] at h2
    · intro p hp
      exact (mem_photos_deletePhotos hp).2
    · intro p hp hpid
      exact photos_deletePhotos_of_not_mem hp hpid
    · intro p hp hpid hg
      exact gcsPath_not_mem_deletePhotos_storage hp hpid hg
  · rw [if_neg hne]
    push_neg at hne
    refine ⟨rfl, rfl, ?_, ?_, ?_, ?_⟩
    · intro d2 hd2
      have h2 := (List.mem_filter.1 hd2).2
      intro hcon
      simp [hcon.1, hcon.2] at h2
    · intro p hp
      rw [hne]
      exact List.not_mem_nil _
    · intro p hp hpid
      exact hp
    · intro p hp hpid
      rw [hne] at hpid
      cases hpid

/-- C1 (witness): the amended behaviour at the concrete sample store. -/
theorem C1_discard_witness :
    (handleDeleteDraft (sampleState "draft") "u" "d").2.1 = ApiResult.ok ∧
    (handleDeleteDraft (sampleState "draft") "u" "d").1.clusters =
      (sampleState "draft").clusters := by
  have h := C1_discard_amended (sampleState "draft") "u" "d"
    ⟨sampleDraft "draft", by decide, by decide, by decide⟩
  exact ⟨h.1, h.2.1⟩

/-- C2 (counterexample): approving draft "d" while keeping only p1 emits
the GCS and row deletions of p2 before the status write, so the status
commit is not persisted before deletion; and the status write carries no
status='draft' precondition — re-approving an approved draft is not
rejected with a conflict. -/
theorem C2_status_order_counterexample :
    statusCommitBeforeDeletions
        (handleApproveDraft (sampleState "draft") "u" "d"
          { photoIds := ["p1"], title := "", description := "", theme := "",
            status := "" }).2.2 = false ∧
    (handleApproveDraft (sampleState "approved") "u" "d"
        { photoIds := ["p1", "p2"], title := "", description := "", theme := "",
          status := "" }).2.1 ≠ ApiResult.conflict := by
  exact ⟨by decide, by decide⟩

/-- C2 (amended): in every approve execution on an existing owned draft —
regardless of its current status — the discarded photos are deleted
first and the unconditional status write to "approved" is the last store
mutation; nothing reverts either step. -/
theorem C2_approve_order_amended (s : DBState) (userId draftId : String)
    (req : DraftRequest) (d : DBPageDraft)
    (hd : GetDraftByID s draftId = some d) (hu : d.userId = userId) :
    (∃ d1, (handleApproveDraft s userId draftId req).2.1 =
        ApiResult.okDraft d1 ∧ d1.status = "approved") ∧
    (handleApproveDraft s userId draftId req).2.2.getLast? =
      some (StoreEvent.draftUpdated draftId "approved") ∧
    (∀ e ∈ (handleApproveDraft s userId draftId req).2.2.dropLast,
        isPhotoDeletionEvent e = true) ∧
    (∀ drow ∈ (handleApproveDraft s userId draftId req).1.drafts,
        drow.id = draftId → drow.userId = userId →
          drow.status = "approved") := by
  have hdid : d.id = draftId := (GetDraftByID_props hd).2
  unfold handleApproveDraft
  rw [hd]
  dsimp only
  rw [if_neg (not_ne_iff.mpr hu)]
  dsimp only
  refine ⟨⟨_, rfl, rfl⟩, ?_, ?_, ?_⟩
  · exact List.getLast?_concat _
  · rw [List.dropLast_concat]
    intro e he
    split at he
    · exact deletePhotos_events he
    · cases he
  · intro drow hdrow hrid hruser
    have : drow = { d with
        status := "approved",
        title := if req.title ≠ "" then some req.title else d.title,
        description :=
          if req.description ≠ "" then some req.description else d.description,
        theme := if req.theme ≠ "" then some req.theme else d.theme } := by
      refine mem_UpdateDraft_eq hdrow ?_ ?_
      · simpa [hdid] using hrid
      · simpa [hu] using hruser
    rw [this]

/-- C3 (counterexample): re-invoking approve on the already-approved draft
"d" does not fail with a conflict: it succeeds and, when the kept set
omits p2, hard-deletes p2 although the draft was already approved. -/
theorem C3_reapprove_counterexample :
    (handleApproveDraft (sampleState "approved") "u" "d"
        { photoIds := ["p1"], title := "", description := "", theme := "",
          status := "" }).2.1 ≠ ApiResult.conflict ∧
    (handleApproveDraft (sampleState "approved") "u" "d"
        { photoIds := ["p1"], title := "", description := "", theme := "",
          status := "" }).2.1 = ApiResult.okDraft (sampleDraft "approved") ∧
    samplePhoto2 ∈ (sampleState "approved").photos ∧
    samplePhoto2 ∉ (handleApproveDraft (sampleState "approved") "u" "d"
        { photoIds := ["p1"], title := "", description := "", theme := "",
          status := "" }).1.photos := by
  exact ⟨by decide, by decide, by decide, by decide⟩

/-- C3 (amended): approve on an already-approved draft is not rejected —
it runs the whole flow again and succeeds; when the supplied kept set
covers the (already shrunken) membership, as it does on an exact retry
after a completed approval, no photo is deleted and photos and storage
are unchanged. -/
theorem C3_reapprove_amended (s : DBState) (userId draftId : String)
    (req : DraftRequest) (d : DBPageDraft)
    (hd : GetDraftByID s draftId = some d) (hu : d.userId = userId)
    (_hs : d.status = "approved") :
    (∃ d1, (handleApproveDraft s userId draftId req).2.1 =
        ApiResult.okDraft d1 ∧ d1.status = "approved") ∧
    ((∀ pid ∈ (GetDraftAllPhotoIDs s draftId).getD [],
          req.photoIds.contains pid) →
        (handleApproveDraft s userId draftId req).1.photos = s.photos ∧
        (handleApproveDraft s userId draftId req).1.storage = s.storage ∧
        ∀ e ∈ (handleApproveDraft s userId draftId req).2.2,
          isPhotoDeletionEvent e = false) := by
  unfold handleApproveDraft
  rw [hd]
  dsimp only
  rw [if_neg (not_ne_iff.mpr hu)]
  dsimp only
  refine ⟨⟨_, rfl, rfl⟩, ?_⟩
  intro hsub
  have hdisc : ((GetDraftAllPhotoIDs s draftId).getD []).filter
      (fun pid => !(req.photoIds.contains pid)) = [] := by
    rw [List.filter_eq_nil_iff]
    intro pid hpid
    have h2 := hsub pid hpid
    simp at h2 ⊢
    exact h2
  rw [hdisc]
  simp only [ne_eq, not_true_eq_false, if_false]
  refine ⟨rfl, rfl, ?_⟩
  intro e he
  rcases List.mem_singleton.1 (by simpa using he) with rfl
  rfl

/-- C4 (counterexample): approving draft "d" with an empty kept set is not
rejected: it succeeds, hard-deletes every photo of the cluster, and
approves the draft with zero photos. -/
theorem C4_empty_kept_counterexample :
    (handleApproveDraft (sampleState "draft") "u" "d"
        { photoIds := [], title := "", description := "", theme := "",
          status := "" }).2.1 = ApiResult.okDraft (sampleDraft "approved") ∧
    (handleApproveDraft (sampleState "draft") "u" "d"
        { photoIds := [], title := "", description := "", theme := "",
          status := "" }).1.photos = [] ∧
    (∀ drow ∈ (handleApproveDraft (sampleState "draft") "u" "d"
        { photoIds := [], title := "", description := "", theme := "",
          status := "" }).1.drafts, drow.status = "approved") := by
  exact ⟨by decide, by decide, by decide⟩

/-- C4 (amended): an approve whose request keeps no photo succeeds
anyway: every photo of the original membership is hard-deleted and the
draft is still flipped to "approved" — the code never enforces a
non-empty kept set. -/
theorem C4_empty_kept_amended (s : DBState) (userId draftId : String)
    (req : DraftRequest) (d : DBPageDraft)
    (hd : GetDraftByID s draftId = some d) (hu : d.userId = userId)
    (hreq : req.photoIds = []) :
    (∃ d1, (handleApproveDraft s userId draftId req).2.1 =
        ApiResult.okDraft d1 ∧ d1.status = "approved") ∧
    (∀ p ∈ (handleApproveDraft s userId draftId req).1.photos,
        p.id ∉ (GetDraftAllPhotoIDs s draftId).getD []) ∧
    (∀ drow ∈ (handleApproveDraft s userId draftId req).1.drafts,
        drow.id = draftId → drow.userId = userId →
          drow.status = "approved") := by
  have hdid : d.id = draftId := (GetDraftByID_props hd).2
  unfold handleApproveDraft
  rw [hd]
  dsimp only
  rw [if_neg (not_ne_iff.mpr hu)]
  dsimp only
  have hdisc : ((GetDraftAllPhotoIDs s draftId).getD []).filter
      (fun pid => !(req.photoIds.contains pid)) =
      (GetDraftAllPhotoIDs s draftId).getD [] := by
    rw [List.filter_eq_self]
    intro pid hpid
    simp [hreq]
  rw [hdisc]
  refine ⟨⟨_, rfl, rfl⟩, ?_, ?_⟩
  · intro p hp
    by_cases hne : (GetDraftAllPhotoIDs s draftId).getD [] ≠ []
    · rw [if_pos hne] at hp
      exact (mem_photos_deletePhotos hp).2
    · rw [if_neg hne] at hp
      push_neg at hne
      rw [hne]
      exact List.not_mem_nil _
  · intro drow hdrow hrid hruser
    have : drow = { d with
        status := "approved",
        title := if req.title ≠ "" then some req.title else d.title,
        description :=
          if req.description ≠ "" then some req.description else d.description,
        theme := if req.theme ≠ "" then some req.theme else d.theme } := by
      refine mem_UpdateDraft_eq hdrow ?_ ?_
      · simpa [hdid] using hrid
      · simpa [hu] using hruser
    rw [this]

/-- C2 (witness): the amended ordering at the sample store — the status
write is the last event of the approve trace. -/
theorem C2_approve_order_witness :
    (handleApproveDraft (sampleState "draft") "u" "d"
        { photoIds := ["p1"], title := "", description := "", theme := "",
          status := "" }).2.2.getLast? =
      some (StoreEvent.draftUpdated "d" "approved") := by
  exact (C2_approve_order_amended (sampleState "draft") "u" "d"
    { photoIds := ["p1"], title := "", description := "", theme := "",
      status := "" } (sampleDraft "draft") (by decide) rfl).2.1

/-- C3 (witness): retrying the approval of the already-approved sample
draft with the full kept set changes no photo row. -/
theorem C3_reapprove_witness :
    (handleApproveDraft (sampleState "approved") "u" "d"
        { photoIds := ["p1", "p2"], title := "", description := "",
          theme := "", status := "" }).1.photos =
      (sampleState "approved").photos := by
  exact ((C3_reapprove_amended (sampleState "approved") "u" "d"
    { photoIds := ["p1", "p2"], title := "", description := "", theme := "",
      status := "" } (sampleDraft "approved") (by decide) rfl rfl).2
    (by decide)).1

/-- C4 (witness): after the empty-kept approval of the sample draft, the
cluster member p1 is gone from the photo table. -/
theorem C4_empty_kept_witness :
    samplePhoto1 ∉ (handleApproveDraft (sampleState "draft") "u" "d"
        { photoIds := [], title := "", description := "", theme := "",
          status := "" }).1.photos := by
  intro hmem
  have h := (C4_empty_kept_amended (sampleState "draft") "u" "d"
      { photoIds := [], title := "", description := "", theme := "",
        status := "" } (sampleDraft "draft") (by decide) rfl rfl).2.1
    samplePhoto1 hmem
  exact h (by decide)

/-- C7 (counterexample): a plain edit of the approved draft "d" succeeds
instead of failing with an invalid-state error, moves the status back to
"draft" because the request body carries one, and clears the stored
theme because the request omits it — so the edit is neither
status-gated, nor partial, nor status-preserving. -/
theorem C7_edit_counterexample :
    (handleEditDraft (sampleState "approved") "u" "d"
        { photoIds := [], title := "New", description := "", theme := "",
          status := "draft" }).2.1 =
      ApiResult.okDraft { (sampleDraft "draft") with
        title := some "New", description := none, theme := none } ∧
    (∀ drow ∈ (handleEditDraft (sampleState "approved") "u" "d"
        { photoIds := [], title := "New", description := "", theme := "",
          status := "draft" }).1.drafts, drow.status = "draft") := by
  exact ⟨by decide, by decide⟩

/-- C7 (amended): the regular draft update runs for any current status
(approved and rejected drafts included): it overwrites title,
description and theme with the request values — an empty request value
clears the stored field to NULL — and overwrites the status whenever the
request carries a non-empty one, keeping it otherwise. -/
theorem C7_edit_amended (s : DBState) (userId draftId : String)
    (req : DraftRequest) (d : DBPageDraft)
    (hd : GetDraftByID s draftId = some d) (hu : d.userId = userId) :
    (handleEditDraft s userId draftId req).2.1 = ApiResult.okDraft { d with
        title := if req.title == "" then none else some req.title,
        description :=
          if req.description == "" then none else some req.description,
        theme := if req.theme == "" then none else some req.theme,
        status := if req.status ≠ "" then req.status else d.status } ∧
    (∀ drow ∈ (handleEditDraft s userId draftId req).1.drafts,
        drow.id = draftId → drow.userId = userId →
          drow.status = if req.status ≠ "" then req.status else d.status) := by
  have hdid : d.id = draftId := (GetDraftByID_props hd).2
  unfold handleEditDraft
  rw [hd]
  dsimp only
  rw [if_neg (not_ne_iff.mpr hu)]
  dsimp only
  refine ⟨rfl, ?_⟩
  intro drow hdrow hrid hruser
  have heq : drow = { d with
      title := if req.title == "" then none else some req.title,
      description :=
        if req.description == "" then none else some req.description,
      theme := if req.theme == "" then none else some req.theme,
      status := if req.status ≠ "" then req.status else d.status } := by
    refine mem_UpdateDraft_eq hdrow ?_ ?_
    · simpa [hdid] using hrid
    · simpa [hu] using hruser
  rw [heq]

/-- C7 (witness): the amended behaviour at the sample store — editing the
approved draft with only a title and description set. -/
theorem C7_edit_witness :
    (handleEditDraft (sampleState "approved") "u" "d"
        { photoIds := [], title := "T2", description := "D2", theme := "",
          status := "" }).2.1 =
      ApiResult.okDraft { (sampleDraft "approved") with
        title := some "T2", description := some "D2", theme := none } := by
  have h := (C7_edit_amended (sampleState "approved") "u" "d"
    { photoIds := [], title := "T2", description := "D2", theme := "",
      status := "" } (sampleDraft "approved") (by decide) rfl).1
  rw [h]
  decide

/-- C10 (counterexample): deleting a photo owned by someone else fails
with Forbidden, not with the not-found error the claim states. -/
theorem C10_delete_photo_counterexample :
    (HandleDeletePhoto photoSampleState "alice" "pb" 42).2 =
      ApiResult.forbidden ∧
    (HandleDeletePhoto photoSampleState "alice" "pb" 42).2 ≠
      ApiResult.notFound := by
  exact ⟨by decide, by decide⟩

/-- C10 (amended): the single-photo delete is a soft delete — on success
it keeps every storage object and every database row (only stamping
`deleted_at`), and the deleted photo disappears from the per-user photo
listing; deleting a missing or already soft-deleted photo fails with
not-found and changes nothing; deleting another user's photo fails with
Forbidden (not not-found) and changes nothing; and all three read
operations exclude soft-deleted rows. -/
theorem C10_soft_delete_amended :
    (∀ s uid pid now s1, HandleDeletePhoto s uid pid now = (s1, ApiResult.ok) →
        s1.storage = s.storage ∧
        s1.photos.map (fun p => p.id) = s.photos.map (fun p => p.id) ∧
        (∀ q ∈ GetPhotosByUser s1 uid, q.id ≠ pid)) ∧
    (∀ s uid pid now, GetPhotoByID s pid = none →
        HandleDeletePhoto s uid pid now = (s, ApiResult.notFound)) ∧
    (∀ s uid pid now p, GetPhotoByID s pid = some p → p.userId ≠ uid →
        HandleDeletePhoto s uid pid now = (s, ApiResult.forbidden)) ∧
    (∀ s uid, ∀ q ∈ GetPhotosByUser s uid, q.deletedAt = none) ∧
    (∀ s pid p, GetPhotoByID s pid = some p → p.deletedAt = none) ∧
    (∀ s uid ids, ∀ q ∈ GetPhotosByIDs s uid ids, q.deletedAt = none) := by
  refine ⟨?_, ?_, ?_, ?_, ?_, ?_⟩
  · intro s uid pid now s1 h
    unfold HandleDeletePhoto at h
    cases hg : GetPhotoByID s pid with
    | none => rw [hg] at h; simp at h
    | some p =>
        rw [hg] at h
        dsimp only at h
        by_cases hown : p.userId ≠ uid
        · rw [if_pos hown] at h; simp at h
        · rw [if_neg hown] at h
          cases hsd : SoftDeletePhoto s uid pid now with
          | none => rw [hsd] at h; simp at h
          | some s2 =>
              rw [hsd] at h
              have hs2 : s2 = s1 := (Prod.ext_iff.1 h).1
              subst hs2
              unfold SoftDeletePhoto at hsd
              by_cases hex : (s.photos.any fun p =>
                  p.id == pid && p.userId == uid && p.deletedAt == none) = true
              · rw [if_pos hex] at hsd
                rcases Option.some.inj hsd with rfl
                refine ⟨rfl, ?_, ?_⟩
                · rw [List.map_map]
                  refine List.map_congr_left ?_
                  intro q hq
                  dsimp only [Function.comp]
                  split <;> rfl
                · intro q hq hqid
                  have hq2 := List.mem_filter.1 hq
                  have hqpred := hq2.1
                  have hqflt := hq2.2
                  rcases List.mem_map.1 hqpred with ⟨p0, hp0, hup⟩
                  by_cases hc : (p0.id == pid && p0.userId == uid &&
                      p0.deletedAt == none) = true
                  · rw [if_pos hc] at hup
                    rw [← hup] at hqflt
                    simp at hqflt
                  · rw [if_neg hc] at hup
                    subst hup
                    simp at hqflt
                    rw [hqid] at hc
                    simp [hqflt.1, hqflt.2] at hc
              · rw [if_neg hex] at hsd
                cases hsd
  · intro s uid pid now h
    simp [HandleDeletePhoto, h]
  · intro s uid pid now p h1 h2
    simp [HandleDeletePhoto, h1, h2]
  · intro s uid q hq
    have h2 := (List.mem_filter.1 hq).2
    simp only [Bool.and_eq_true, beq_iff_eq] at h2
    exact h2.2
  · intro s pid p h
    have h2 := List.find?_some h
    simp only [Bool.and_eq_true, beq_iff_eq] at h2
    exact h2.2
  · intro s uid ids q hq
    have h2 := (List.mem_filter.1 hq).2
    simp only [Bool.and_eq_true, beq_iff_eq] at h2
    exact h2.2

/-- C10 (witness): the amended behaviour at the sample photo store — the
foreign-owner delete is Forbidden and state-preserving, and the
successful delete of "pa" keeps the storage objects. -/
theorem C10_soft_delete_witness :
    HandleDeletePhoto photoSampleState "alice" "pb" 42 =
      (photoSampleState, ApiResult.forbidden) ∧
    photoSampleStateAfter.storage = photoSampleState.storage := by
  constructor
  · exact C10_soft_delete_amended.2.2.1 photoSampleState "alice" "pb" 42
      { id := "pb", userId := "bob", gcsPath := "gb", thumbGcsPath := none,
        takenAt := none, deletedAt := none } (by decide) (by decide)
  · exact (C10_soft_delete_amended.1 photoSampleState "alice" "pa" 42
      photoSampleStateAfter (by decide)).1

end DrawAMemory
